import Mathlib

/-!
Shallow embedding of the chat-action parsing and normalization pipeline of
YouTube-Local-Chat-Replayer (src/script.js and the unnamed companion script
src/unnamed/part_000; the two contain near-identical copies of
`processMessageRuns` and `displayChatMessages`).

JavaScript strings are modelled as `List Char`.  Optional/absent/null JSON
fields are modelled as `Option`; the JavaScript truthiness test `x || d` on a
string-valued field (which also treats the empty string as falsy) is modelled
by `orElseStr`.
-/

namespace ChatReplay

/-- The set of characters matched by JavaScript `String.prototype.trim` and by
the regex class `\s` (ECMAScript WhiteSpace ∪ LineTerminator). -/
def jsWhitespaceChars : List Char :=
  [Char.ofNat 0x09, Char.ofNat 0x0A, Char.ofNat 0x0B, Char.ofNat 0x0C,
   Char.ofNat 0x0D, Char.ofNat 0x20, Char.ofNat 0xA0, Char.ofNat 0x1680,
   Char.ofNat 0x2000, Char.ofNat 0x2001, Char.ofNat 0x2002, Char.ofNat 0x2003,
   Char.ofNat 0x2004, Char.ofNat 0x2005, Char.ofNat 0x2006, Char.ofNat 0x2007,
   Char.ofNat 0x2008, Char.ofNat 0x2009, Char.ofNat 0x200A, Char.ofNat 0x2028,
   Char.ofNat 0x2029, Char.ofNat 0x202F, Char.ofNat 0x205F, Char.ofNat 0x3000,
   Char.ofNat 0xFEFF]

def isJsWhitespace (c : Char) : Bool := jsWhitespaceChars.contains c

/-- `rawText.trim()` of script.js line 29 / part_000 line 578. -/
def trimJs (l : List Char) : List Char :=
  ((l.dropWhile isJsWhitespace).reverse.dropWhile isJsWhitespace).reverse

def lbrace : Char := Char.ofNat 0x7b
def rbrace : Char := Char.ofNat 0x7d

/-- `processedText.replace(/}\s*{/g, '},{')` (script.js line 44 / part_000
line 596): scan left to right; at a `}` whose following maximal whitespace run
is immediately followed by `{`, emit `},{` and resume after that `{`.  The
`fuel` argument only bounds the recursion (each step consumes at least one
input character, so `l.length` fuel is enough); the exhausted-fuel branch is
unreachable. -/
def replaceSepAux : Nat → List Char → List Char
  | 0, l => l
  | _, [] => []
  | fuel + 1, c :: rest =>
    if c = rbrace then
      match rest.dropWhile isJsWhitespace with
      | d :: ds =>
        if d = lbrace then rbrace :: ',' :: lbrace :: replaceSepAux fuel ds
        else c :: replaceSepAux fuel rest
      | [] => c :: replaceSepAux fuel rest
    else c :: replaceSepAux fuel rest

def replaceSep (l : List Char) : List Char := replaceSepAux l.length l

/-- `processedText.startsWith('[') && processedText.endsWith(']')`
(script.js line 38 / part_000 lines 587-588). -/
def isLikelyValidArray (t : List Char) : Bool :=
  t.head? == some '[' && t.getLast? == some ']'

/-- The repair step (script.js lines 38-46 / part_000 lines 587-598): if the
trimmed text does not already look like a JSON array, join concatenated
objects and wrap the whole text in brackets. -/
def repairText (t : List Char) : List Char :=
  if isLikelyValidArray t then t
  else '[' :: (replaceSep t ++ [']'])

theorem repairText_likely (t : List Char) (h : isLikelyValidArray t = true) :
    repairText t = t := by
  simp [repairText, h]

theorem repairText_not_likely (t : List Char) (h : isLikelyValidArray t = false) :
    repairText t = '[' :: (replaceSep t ++ [']']) := by
  simp [repairText, h]

theorem isLikelyValidArray_repairText (t : List Char) :
    isLikelyValidArray (repairText t) = true := by
  cases h : isLikelyValidArray t with
  | true => rw [repairText_likely t h]; exact h
  | false =>
    rw [repairText_not_likely t h]
    have hlast : ('[' :: (replaceSep t ++ [']'])).getLast? = some ']' := by
      rw [show '[' :: (replaceSep t ++ [']']) = ('[' :: replaceSep t) ++ [']'] by simp]
      exact List.getLast?_concat _
    simp [isLikelyValidArray, hlast]

/-- JavaScript `x || d` for a string-valued optional field: the empty string is
falsy, so it also falls back to the default. -/
def orElseStr (x : Option (List Char)) (d : List Char) : List Char :=
  match x with
  | some s => if s.isEmpty then d else s
  | none => d

/-- JavaScript truthiness of a string-valued optional field. -/
def truthyStr (x : Option (List Char)) : Bool :=
  match x with
  | some s => !s.isEmpty
  | none => false

structure Thumbnail where
  url : Option (List Char)
deriving DecidableEq

structure ThumbnailList where
  thumbnails : Option (List Thumbnail)
deriving DecidableEq

structure SimpleText where
  simpleText : Option (List Char)
deriving DecidableEq

structure AccessibilityData where
  label : Option (List Char)
deriving DecidableEq

structure Accessibility where
  accessibilityData : Option AccessibilityData
deriving DecidableEq

/-- The `emoji` object of a message run. -/
structure EmojiData where
  image : Option ThumbnailList
  accessibility : Option Accessibility
  shortcuts : Option (List (List Char))
deriving DecidableEq

/-- One rich-text run: carries `text` and/or an `emoji` object. -/
structure Run where
  text : Option (List Char)
  emoji : Option EmojiData
deriving DecidableEq

structure MessageRuns where
  runs : Option (List Run)
deriving DecidableEq

structure BadgeRenderer where
  customThumbnail : Option ThumbnailList
  tooltip : Option (List Char)
deriving DecidableEq

structure BadgeItem where
  liveChatAuthorBadgeRenderer : Option BadgeRenderer
deriving DecidableEq

/-- The common renderer payload shape read by `displayChatMessages` for both
recognized renderer kinds; fields missing from a given JSON object are `none`. -/
structure Renderer where
  authorPhoto : Option ThumbnailList
  timestampText : Option SimpleText
  authorName : Option SimpleText
  authorBadges : Option (List BadgeItem)
  message : Option MessageRuns
  headerPrimaryText : Option MessageRuns
  headerSubtext : Option SimpleText
deriving DecidableEq

/-- `addChatItemAction.item`: only the two recognized renderer keys are ever
read by the code; an item with neither is an unhandled item kind. -/
structure Item where
  liveChatTextMessageRenderer : Option Renderer
  liveChatMembershipItemRenderer : Option Renderer
deriving DecidableEq

structure AddChatItemAction where
  item : Option Item
deriving DecidableEq

/-- One action record; only these two keys are ever read by the code. -/
structure Action where
  addChatItemAction : Option AddChatItemAction
  addLiveChatTickerItemAction : Option Unit
deriving DecidableEq

def placeholderUrl : List Char := "placeholder.png".toList
def noTimeText : List Char := "[no time]".toList
def unknownAuthorText : List Char := "[unknown author]".toList
def badgeDefaultText : List Char := "Badge".toList
def emojiDefaultText : List Char := "emoji".toList

/-- `emoji.image?.thumbnails?.[0]?.url || ''` (script.js line 111 /
part_000 line 705). -/
def emojiSrcOf (e : EmojiData) : List Char :=
  orElseStr (((e.image.bind ThumbnailList.thumbnails).bind List.head?).bind Thumbnail.url) []

/-- `emoji.accessibility?.accessibilityData?.label || emoji.shortcuts?.[0] ||
'emoji'` (script.js line 112 / part_000 lines 706-709). -/
def emojiAltOf (e : EmojiData) : List Char :=
  orElseStr ((e.accessibility.bind Accessibility.accessibilityData).bind AccessibilityData.label)
    (orElseStr (e.shortcuts.bind List.head?) emojiDefaultText)

/-- One emitted run token.  `emojiFallbackText alt` models the degraded branch
that appends the literal text node `[` ++ alt ++ `]` in place of an image
(script.js line 126 / part_000 line 723): the emoji image is unavailable and a
renderer substitutes the bracketed alt text. -/
inductive RunOut where
  | textRun (text : List Char)
  | emojiRun (src : List Char) (alt : List Char)
  | emojiFallbackText (alt : List Char)
deriving DecidableEq

/-- The emoji branch of `processMessageRuns` (script.js lines 107-127 /
part_000 lines 701-724): emit an image run when a thumbnail URL resolved,
otherwise the degraded bracketed-alt-text token. -/
def emojiOut (e : EmojiData) : RunOut :=
  if (emojiSrcOf e).isEmpty then .emojiFallbackText (emojiAltOf e)
  else .emojiRun (emojiSrcOf e) (emojiAltOf e)

/-- One iteration of the `runs.forEach` body (script.js lines 104-130 /
part_000 lines 698-727): truthy `run.text` emits a text node, else a present
`run.emoji` emits an emoji run, else nothing is emitted. -/
def runToOut (run : Run) : Option RunOut :=
  if truthyStr run.text then some (.textRun (run.text.getD []))
  else
    match run.emoji with
    | some e => some (emojiOut e)
    | none => none

/-- `processMessageRuns` (script.js lines 99-131 / part_000 lines 693-728),
as the sequence of nodes appended to the target element; a missing/non-array
`runs` argument just clears the target (no output). -/
def processMessageRuns (runs : Option (List Run)) : List RunOut :=
  match runs with
  | none => []
  | some rs => rs.foldl (fun acc run => acc ++ (runToOut run).toList) []

structure BadgeOut where
  iconUrl : List Char
  tooltip : List Char
deriving DecidableEq

/-- One iteration of the `authorBadges.forEach` body (script.js lines 230-241
/ part_000 lines 840-853): a badge is rendered only when its custom thumbnail
URL is truthy; the tooltip falls back to `Badge`. -/
def badgeOf (bi : BadgeItem) : Option BadgeOut :=
  match bi.liveChatAuthorBadgeRenderer with
  | none => none
  | some br =>
    let u := ((br.customThumbnail.bind ThumbnailList.thumbnails).bind List.head?).bind Thumbnail.url
    if truthyStr u then some { iconUrl := u.getD [], tooltip := orElseStr br.tooltip badgeDefaultText }
    else none

def buildBadges (l : List BadgeItem) : List BadgeOut :=
  l.filterMap badgeOf

/-- One body element of a built message: a membership primary-header span, a
membership subtext span, or a directly appended run node. -/
inductive BodyPart where
  | headerPrimary (runs : List RunOut)
  | headerSubtext (text : List Char)
  | bodyRun (r : RunOut)
deriving DecidableEq

/-- The output unit: the data projected onto one `.chat-message` element. -/
structure DisplayMessage where
  authorPhotoUrl : List Char
  timestampText : List Char
  authorName : List Char
  badges : List BadgeOut
  membership : Bool
  body : List BodyPart
deriving DecidableEq

/-- Common field extraction of `displayChatMessages` (script.js lines 192-195
/ part_000 lines 795-802) plus element assembly. -/
def buildCommon (r : Renderer) (member : Bool) (body : List BodyPart) : DisplayMessage :=
  { authorPhotoUrl :=
      orElseStr (((r.authorPhoto.bind ThumbnailList.thumbnails).bind List.head?).bind Thumbnail.url)
        placeholderUrl
  , timestampText := orElseStr (r.timestampText.bind SimpleText.simpleText) noTimeText
  , authorName := orElseStr (r.authorName.bind SimpleText.simpleText) unknownAuthorText
  , badges := buildBadges (r.authorBadges.getD [])
  , membership := member
  , body := body }

/-- Body of a plain text message (script.js lines 248-249 / part_000 lines
860-861). -/
def buildTextMessage (tr : Renderer) : DisplayMessage :=
  buildCommon tr false ((processMessageRuns (tr.message.bind MessageRuns.runs)).map .bodyRun)

/-- Body of a membership message (script.js lines 250-267 / part_000 lines
862-883): optional primary header span, optional subtext span, optional
directly appended message runs. -/
def memberBody (mr : Renderer) : List BodyPart :=
  (match mr.headerPrimaryText.bind MessageRuns.runs with
   | some rs => [BodyPart.headerPrimary (processMessageRuns (some rs))]
   | none => []) ++
  (match mr.headerSubtext.bind SimpleText.simpleText with
   | some s => if s.isEmpty then [] else [BodyPart.headerSubtext s]
   | none => []) ++
  (match mr.message.bind MessageRuns.runs with
   | some rs => (processMessageRuns (some rs)).map BodyPart.bodyRun
   | none => [])

def buildMemberMessage (mr : Renderer) : DisplayMessage :=
  buildCommon mr true (memberBody mr)

/-- What one action contributes: a displayed message or one skip category. -/
inductive Classified where
  | displayed (m : DisplayMessage)
  | skippedTicker
  | skippedOtherItem
  | skippedOtherAction
deriving DecidableEq

/-- The dispatch performed by one iteration of the `actions.forEach` body
(script.js lines 150-282 / part_000 lines 751-896). -/
def classify (action : Action) : Classified :=
  match action.addChatItemAction with
  | some aci =>
    match aci.item with
    | none => .skippedOtherAction
    | some item =>
      match item.liveChatTextMessageRenderer with
      | some tr => .displayed (buildTextMessage tr)
      | none =>
        match item.liveChatMembershipItemRenderer with
        | some mr => .displayed (buildMemberMessage mr)
        | none => .skippedOtherItem
  | none =>
    match action.addLiveChatTickerItemAction with
    | some _ => .skippedTicker
    | none => .skippedOtherAction

def msgOf (action : Action) : Option DisplayMessage :=
  match classify action with
  | .displayed m => some m
  | _ => none

/-- The four counters of `displayChatMessages` (source names
`messageCount`, `skippedTickerCount`, `skippedOtherItemCount`,
`skippedOtherActionCount`). -/
structure Counters where
  messageCount : Nat
  skippedTickerCount : Nat
  skippedOtherItemCount : Nat
  skippedOtherActionCount : Nat
deriving DecidableEq

def stepMessage (acc : List DisplayMessage × Counters) (action : Action) :
    List DisplayMessage × Counters :=
  match classify action with
  | .displayed m =>
    (acc.1 ++ [m], { acc.2 with messageCount := acc.2.messageCount + 1 })
  | .skippedTicker =>
    (acc.1, { acc.2 with skippedTickerCount := acc.2.skippedTickerCount + 1 })
  | .skippedOtherItem =>
    (acc.1, { acc.2 with skippedOtherItemCount := acc.2.skippedOtherItemCount + 1 })
  | .skippedOtherAction =>
    (acc.1, { acc.2 with skippedOtherActionCount := acc.2.skippedOtherActionCount + 1 })

/-- The `actions.forEach` loop: messages appended in order, counters
incremented from zero. -/
def runActions (actions : List Action) : List DisplayMessage × Counters :=
  actions.foldl stepMessage ([], ⟨0, 0, 0, 0⟩)

/-- `skippedMessages` list of the summary (script.js lines 299-302 / part_000
lines 919-925): only nonzero categories, in this fixed order. -/
def skippedMessages (c : Counters) : List (List Char) :=
  (if c.skippedTickerCount > 0 then
     [(Nat.repr c.skippedTickerCount).toList ++ (" ticker".toList)] else []) ++
  (if c.skippedOtherItemCount > 0 then
     [(Nat.repr c.skippedOtherItemCount).toList ++ (" unhandled item types".toList)] else []) ++
  (if c.skippedOtherActionCount > 0 then
     [(Nat.repr c.skippedOtherActionCount).toList ++ (" unhandled action types".toList)] else [])

def noActionsText : List Char := "No chat actions found in the file data.".toList

/-- Base summary sentence (script.js lines 289-296).  The companion script's
copy (part_000 lines 904-916) differs only in the wording of the
zero-displayed branch. -/
def summaryBase (actions : List Action) (c : Counters) : List Char :=
  if c.messageCount == 0 && actions.length > 0 then
    ("Processed ".toList) ++ (Nat.repr actions.length).toList ++
      (" actions, but found no displayable messages.".toList)
  else if actions.length == 0 then noActionsText
  else ("Displayed ".toList) ++ (Nat.repr c.messageCount).toList ++ (" messages.".toList)

/-- Full summary line (script.js lines 285-308): base sentence plus the
parenthetical comma-joined breakdown when any skip counter is nonzero. -/
def summaryOf (actions : List Action) (c : Counters) : List Char :=
  let sk := skippedMessages c
  if sk.isEmpty then summaryBase actions c
  else summaryBase actions c ++ (" (Skipped: ".toList) ++
    List.intercalate (", ".toList) sk ++ (")".toList)

/-- `displayChatMessages` (script.js lines 137-313 / part_000 lines 735-936)
as data: the ordered emitted messages, the final counters, and the summary
line (for an empty action list the early-return message). -/
def displayChatMessages (actions : List Action) :
    List DisplayMessage × Counters × List Char :=
  if actions.isEmpty then ([], ⟨0, 0, 0, 0⟩, noActionsText)
  else
    let r := runActions actions
    (r.1, r.2, summaryOf actions r.2)

structure ReplayChatItemAction where
  actions : Option (List Action)
deriving DecidableEq

structure LiveChatContinuation where
  actions : Option (List Action)
deriving DecidableEq

structure ContinuationContents where
  liveChatContinuation : Option LiveChatContinuation
deriving DecidableEq

/-- One top-level item of the parsed array; only these two paths are read. -/
structure TopItem where
  replayChatItemAction : Option ReplayChatItemAction
  continuationContents : Option ContinuationContents
deriving DecidableEq

/-- The `flatMap` callback (script.js line 57 / part_000 lines 609-614):
`item?.replayChatItemAction?.actions ||
item?.continuationContents?.liveChatContinuation?.actions || []`.
A present actions array — even an empty one — is truthy and wins. -/
def itemActions (item : TopItem) : List Action :=
  match item.replayChatItemAction.bind ReplayChatItemAction.actions with
  | some as => as
  | none =>
    match (item.continuationContents.bind ContinuationContents.liveChatContinuation).bind
        LiveChatContinuation.actions with
    | some as => as
    | none => []

/-- `chatDataArray.flatMap(...)`: concatenation in encounter order. -/
def extractActions (items : List TopItem) : List Action :=
  (items.map itemActions).flatten

/-- Error taxonomy of the pipeline.  `MalformedJson` is the `SyntaxError`
caught from `JSON.parse`; `InternalShapeError` covers the two `Array.isArray`
safeguards (unreachable here because the parse result is typed as a list). -/
inductive ProcessError where
  | EmptyInput
  | MalformedJson
  | InternalShapeError
deriving DecidableEq

/-- `processChatData` (part_000 lines 575-642; script.js lines 28-70 is the
same pipeline inside `reader.onload`).  `JSON.parse` plus the top-level
`Array.isArray` check is an external primitive, abstracted as `parseJson`;
`none` models a thrown `SyntaxError`. -/
def processChatData (parseJson : List Char → Option (List TopItem))
    (rawText : List Char) :
    Except ProcessError (List DisplayMessage × Counters × List Char) :=
  let processedText := trimJs rawText
  if processedText.isEmpty then .error .EmptyInput
  else
    match parseJson (repairText processedText) with
    | none => .error .MalformedJson
    | some chatDataArray => .ok (displayChatMessages (extractActions chatDataArray))

/-! Sample inputs used by the concrete scenarios and witnesses. -/

/-- The emoji run of the degraded-emoji scenario:
`\x7b"emoji":\x7b"shortcuts":["chat"],"image":\x7b"thumbnails":[]\x7d\x7d\x7d`. -/
def chatEmoji : EmojiData :=
  { image := some { thumbnails := some [] }
  , accessibility := none
  , shortcuts := some [("chat".toList)] }

def chatEmojiRun : Run := { text := none, emoji := some chatEmoji }

/-- A recognized renderer with every optional field absent. -/
def emptyRenderer : Renderer :=
  { authorPhoto := none, timestampText := none, authorName := none,
    authorBadges := none, message := none, headerPrimaryText := none,
    headerSubtext := none }

def sampleTextItem : Item :=
  { liveChatTextMessageRenderer := some emptyRenderer
  , liveChatMembershipItemRenderer := none }

/-- An item of an unrecognized renderer kind: neither recognized key present. -/
def sampleUnknownItem : Item :=
  { liveChatTextMessageRenderer := none, liveChatMembershipItemRenderer := none }

def sampleTextAction : Action :=
  { addChatItemAction := some { item := some sampleTextItem }
  , addLiveChatTickerItemAction := none }

def sampleTickerAction : Action :=
  { addChatItemAction := none, addLiveChatTickerItemAction := some () }

def sampleUnknownItemAction : Action :=
  { addChatItemAction := some { item := some sampleUnknownItem }
  , addLiveChatTickerItemAction := none }

/-- One text message, one ticker action, one unrecognized item kind. -/
def scenarioActions : List Action :=
  [sampleTextAction, sampleTickerAction, sampleUnknownItemAction]

def sampleMsg : DisplayMessage := buildTextMessage emptyRenderer

def sampleReplayItem : TopItem :=
  { replayChatItemAction := some { actions := some [sampleTickerAction] }
  , continuationContents := none }

/-! Helper lemmas. -/

def countersSum (c : Counters) : Nat :=
  c.messageCount + c.skippedTickerCount + c.skippedOtherItemCount +
    c.skippedOtherActionCount

theorem countersSum_stepMessage (acc : List DisplayMessage × Counters) (a : Action) :
    countersSum (stepMessage acc a).2 = countersSum acc.2 + 1 := by
  unfold stepMessage
  cases classify a <;> simp [countersSum] <;> omega

theorem countersSum_foldl (actions : List Action) (acc : List DisplayMessage × Counters) :
    countersSum (actions.foldl stepMessage acc).2 = countersSum acc.2 + actions.length := by
  induction actions generalizing acc with
  | nil => simp
  | cons a as ih =>
    rw [List.foldl_cons, ih, countersSum_stepMessage]
    simp only [List.length_cons]
    omega

theorem fst_foldl_stepMessage (actions : List Action) (msgs : List DisplayMessage)
    (c : Counters) :
    (actions.foldl stepMessage (msgs, c)).1 = msgs ++ actions.filterMap msgOf := by
  induction actions generalizing msgs c with
  | nil => simp
  | cons a as ih =>
    rw [List.foldl_cons, List.filterMap_cons]
    cases h : classify a with
    | displayed m => simp [stepMessage, h, msgOf, ih]
    | skippedTicker => simp [stepMessage, h, msgOf, ih]
    | skippedOtherItem => simp [stepMessage, h, msgOf, ih]
    | skippedOtherAction => simp [stepMessage, h, msgOf, ih]

theorem messages_eq_filterMap (actions : List Action) :
    (displayChatMessages actions).1 = actions.filterMap msgOf := by
  unfold displayChatMessages runActions
  cases actions with
  | nil => simp
  | cons a as => simpa using fst_foldl_stepMessage (a :: as) [] ⟨0, 0, 0, 0⟩

theorem dropWhile_of_all (l : List Char) (h : l.all isJsWhitespace = true) :
    l.dropWhile isJsWhitespace = [] := by
  induction l with
  | nil => rfl
  | cons c cs ih =>
    simp only [List.all_cons, Bool.and_eq_true] at h
    simp [List.dropWhile_cons, h.1, ih h.2]

theorem trimJs_of_all (l : List Char) (h : l.all isJsWhitespace = true) :
    trimJs l = [] := by
  unfold trimJs
  rw [dropWhile_of_all l h]
  simp

theorem emojiOut_ne_textRun (e : EmojiData) (t : List Char) :
    emojiOut e ≠ .textRun t := by
  unfold emojiOut
  split <;> simp

theorem foldl_runToOut_append (rs : List Run) (acc : List RunOut) :
    rs.foldl (fun acc run => acc ++ (runToOut run).toList) acc =
      acc ++ rs.filterMap runToOut := by
  induction rs generalizing acc with
  | nil => simp
  | cons r rs ih =>
    rw [List.foldl_cons, ih, List.filterMap_cons]
    cases runToOut r <;> simp

/-! The claims. -/

/-- Claim C1: conservation law of the classification pass — the four final
counters of `displayChatMessages` (source names `messageCount`,
`skippedTickerCount`, `skippedOtherItemCount`, `skippedOtherActionCount` for
the spec's displayed / skippedTicker / skippedUnhandledItem /
skippedUnhandledAction) sum to the number of actions processed: each action
increments exactly one of the four. -/
theorem counter_conservation (actions : List Action) :
    (((displayChatMessages actions).2.1).messageCount +
      ((displayChatMessages actions).2.1).skippedTickerCount +
      ((displayChatMessages actions).2.1).skippedOtherItemCount +
      ((displayChatMessages actions).2.1).skippedOtherActionCount =
      actions.length) ∧
    (∀ (a : Action) (aci : AddChatItemAction),
        a.addChatItemAction = some aci → aci.item = none →
        classify a = .skippedOtherAction) ∧
    (∀ (a : Action) (aci : AddChatItemAction) (item : Item) (tr : Renderer),
        a.addChatItemAction = some aci → aci.item = some item →
        item.liveChatTextMessageRenderer = some tr →
        classify a = .displayed (buildTextMessage tr)) ∧
    (∀ (a : Action) (aci : AddChatItemAction) (item : Item) (mr : Renderer),
        a.addChatItemAction = some aci → aci.item = some item →
        item.liveChatTextMessageRenderer = none →
        item.liveChatMembershipItemRenderer = some mr →
        classify a = .displayed (buildMemberMessage mr)) ∧
    (∀ (a : Action) (aci : AddChatItemAction) (item : Item),
        a.addChatItemAction = some aci → aci.item = some item →
        item.liveChatTextMessageRenderer = none →
        item.liveChatMembershipItemRenderer = none →
        classify a = .skippedOtherItem) ∧
    (∀ a : Action, a.addChatItemAction = none →
        a.addLiveChatTickerItemAction = some () → classify a = .skippedTicker) ∧
    (∀ a : Action, a.addChatItemAction = none →
        a.addLiveChatTickerItemAction = none → classify a = .skippedOtherAction) := by
  refine ⟨?_, ?_, ?_, ?_, ?_, ?_, ?_⟩
  · unfold displayChatMessages runActions
    cases actions with
    | nil => simp
    | cons a as =>
      have h := countersSum_foldl (a :: as) ([], ⟨0, 0, 0, 0⟩)
      simpa [countersSum] using h
  · intro a aci h1 h2
    simp [classify, h1, h2]
  · intro a aci item tr h1 h2 h3
    simp [classify, h1, h2, h3]
  · intro a aci item mr h1 h2 h3 h4
    simp [classify, h1, h2, h3, h4]
  · intro a aci item h1 h2 h3 h4
    simp [classify, h1, h2, h3, h4]
  · intro a h1 h2
    simp [classify, h1, h2]
  · intro a h1 h2
    simp [classify, h1, h2]

/-- Witness for C1: the conservation law and the category mapping at the
concrete three-action scenario. -/
theorem counter_conservation_witness :
    (((displayChatMessages scenarioActions).2.1).messageCount +
      ((displayChatMessages scenarioActions).2.1).skippedTickerCount +
      ((displayChatMessages scenarioActions).2.1).skippedOtherItemCount +
      ((displayChatMessages scenarioActions).2.1).skippedOtherActionCount =
      scenarioActions.length) ∧
    classify sampleTextAction = .displayed (buildTextMessage emptyRenderer) ∧
    classify sampleTickerAction = .skippedTicker ∧
    classify sampleUnknownItemAction = .skippedOtherItem :=
  ⟨(counter_conservation scenarioActions).1,
   (counter_conservation []).2.2.1 sampleTextAction ⟨some sampleTextItem⟩
     sampleTextItem emptyRenderer rfl rfl rfl,
   (counter_conservation []).2.2.2.2.2.1 sampleTickerAction rfl rfl,
   (counter_conservation []).2.2.2.2.1 sampleUnknownItemAction
     ⟨some sampleUnknownItem⟩ sampleUnknownItem rfl rfl rfl rfl⟩

/-- Claim C2: for every trimmed input that does not both start with `[` and
end with `]`, the repair step replaces every `\x7d` optional-whitespace `\x7b`
separator (the `replaceSep` scan) and wraps the result in brackets; in
particular `\x7b"a":1\x7d\x7b"b":2\x7d` repairs to exactly
`[\x7b"a":1\x7d,\x7b"b":2\x7d]`. -/
theorem repair_concatenated_json (t : List Char)
    (h : isLikelyValidArray t = false) :
    repairText t = '[' :: (replaceSep t ++ [']']) ∧
      repairText ("\x7b\"a\":1\x7d\x7b\"b\":2\x7d".toList) =
        ("[\x7b\"a\":1\x7d,\x7b\"b\":2\x7d]".toList) :=
  ⟨repairText_not_likely t h, by decide⟩

/-- Witness for C2 at the concrete scenario input. -/
theorem repair_concatenated_json_witness :
    isLikelyValidArray ("\x7b\"a\":1\x7d\x7b\"b\":2\x7d".toList) = false ∧
      repairText ("\x7b\"a\":1\x7d\x7b\"b\":2\x7d".toList) =
        ("[\x7b\"a\":1\x7d,\x7b\"b\":2\x7d]".toList) :=
  ⟨by decide,
   (repair_concatenated_json ("\x7b\"a\":1\x7d\x7b\"b\":2\x7d".toList) (by decide)).2⟩

/-- Claim C3: repair idempotence — a trimmed input that already starts with
`[` and ends with `]` passes the repair step unchanged, and applying the
repair step to any output of the repair step (which always starts with `[`
and ends with `]`) yields the same string: no double-wrapping. -/
theorem repair_idempotence (t : List Char) (h : isLikelyValidArray t = true) :
    repairText t = t ∧ ∀ s : List Char, repairText (repairText s) = repairText s :=
  ⟨repairText_likely t h,
   fun s => repairText_likely _ (isLikelyValidArray_repairText s)⟩

/-- Witness for C3 on a concrete pre-formed array and a concrete unwrapped
input. -/
theorem repair_idempotence_witness :
    isLikelyValidArray ("[\x7b\"a\":1\x7d]".toList) = true ∧
      repairText ("[\x7b\"a\":1\x7d]".toList) = ("[\x7b\"a\":1\x7d]".toList) ∧
      repairText (repairText ("\x7b\"a\":1\x7d".toList)) =
        repairText ("\x7b\"a\":1\x7d".toList) :=
  ⟨by decide, (repair_idempotence _ (by decide)).1,
   (repair_idempotence ("[]".toList) (by decide)).2 ("\x7b\"a\":1\x7d".toList)⟩

/-- Claim C4: an input that is empty or consists only of whitespace makes the
pipeline fail with `EmptyInput`, for every possible JSON parser — so before
repair or parsing could contribute anything — and no messages are emitted. -/
theorem empty_input_fails (parseJson : List Char → Option (List TopItem))
    (rawText : List Char) (h : rawText.all isJsWhitespace = true) :
    processChatData parseJson rawText = .error .EmptyInput := by
  unfold processChatData
  rw [trimJs_of_all rawText h]
  simp

/-- Witness for C4 on a concrete whitespace-only input. -/
theorem empty_input_fails_witness :
    (("  \n".toList).all isJsWhitespace = true) ∧
      processChatData (fun _ => none) ("  \n".toList) = .error .EmptyInput :=
  ⟨by decide, empty_input_fails (fun _ => none) _ (by decide)⟩

/-- Claim C5: action extraction — each top-level item contributes its actions
from `replayChatItemAction.actions` when present, otherwise from
`continuationContents.liveChatContinuation.actions`, otherwise contributes
zero actions; contributions are concatenated in encounter order. -/
theorem extract_actions_priority :
    (∀ (item : TopItem) (as : List Action),
        item.replayChatItemAction.bind ReplayChatItemAction.actions = some as →
        itemActions item = as) ∧
    (∀ (item : TopItem) (as : List Action),
        item.replayChatItemAction.bind ReplayChatItemAction.actions = none →
        (item.continuationContents.bind ContinuationContents.liveChatContinuation).bind
          LiveChatContinuation.actions = some as →
        itemActions item = as) ∧
    (∀ item : TopItem,
        item.replayChatItemAction.bind ReplayChatItemAction.actions = none →
        (item.continuationContents.bind ContinuationContents.liveChatContinuation).bind
          LiveChatContinuation.actions = none →
        itemActions item = []) ∧
    (∀ l₁ l₂ : List TopItem,
        extractActions (l₁ ++ l₂) = extractActions l₁ ++ extractActions l₂) ∧
    (∀ item : TopItem, extractActions [item] = itemActions item) := by
  refine ⟨?_, ?_, ?_, ?_, ?_⟩
  · intro item as h
    unfold itemActions
    rw [h]
  · intro item as h1 h2
    unfold itemActions
    rw [h1, h2]
  · intro item h1 h2
    unfold itemActions
    rw [h1, h2]
  · intro l₁ l₂
    unfold extractActions
    rw [List.map_append, List.flatten_append]
  · intro item
    unfold extractActions
    simp

/-- Witness for C5 on a concrete item of each shape. -/
theorem extract_actions_priority_witness :
    (sampleReplayItem.replayChatItemAction.bind ReplayChatItemAction.actions =
      some [sampleTickerAction]) ∧
      itemActions sampleReplayItem = [sampleTickerAction] :=
  ⟨rfl, extract_actions_priority.1 sampleReplayItem [sampleTickerAction] rfl⟩

/-- Claim C6 as stated is false: the summary line contains a period after
`messages`, so for the one-text / one-ticker / one-unrecognized scenario the
summary is not the claimed string. -/
theorem summary_scenario_counterexample :
    (displayChatMessages scenarioActions).2.2 ≠
      ("Displayed 1 messages (Skipped: 1 ticker, 1 unhandled item types)".toList) := by
  decide

/-- Claim C6 (amended): the scenario counters are displayed=1,
skippedTicker=1, skippedUnhandledItem=1, skippedUnhandledAction=0 and the
summary is `Displayed 1 messages. (Skipped: 1 ticker, 1 unhandled item
types)` — with a period after `messages`; in general the parenthetical
breakdown lists exactly the nonzero skip categories with their counts and
labels, omitting zero-valued ones. -/
theorem summary_scenario_amended :
    (displayChatMessages scenarioActions).2.1 = ⟨1, 1, 1, 0⟩ ∧
    (displayChatMessages scenarioActions).2.2 =
      ("Displayed 1 messages. (Skipped: 1 ticker, 1 unhandled item types)".toList) ∧
    ∀ (c : Counters) (s : List Char),
      s ∈ skippedMessages c ↔
        (0 < c.skippedTickerCount ∧
          s = (Nat.repr c.skippedTickerCount).toList ++ (" ticker".toList)) ∨
        (0 < c.skippedOtherItemCount ∧
          s = (Nat.repr c.skippedOtherItemCount).toList ++ (" unhandled item types".toList)) ∨
        (0 < c.skippedOtherActionCount ∧
          s = (Nat.repr c.skippedOtherActionCount).toList ++ (" unhandled action types".toList)) := by
  refine ⟨by decide, by decide, ?_⟩
  intro c s
  unfold skippedMessages
  rcases Nat.eq_zero_or_pos c.skippedTickerCount with h1 | h1 <;>
    rcases Nat.eq_zero_or_pos c.skippedOtherItemCount with h2 | h2 <;>
    rcases Nat.eq_zero_or_pos c.skippedOtherActionCount with h3 | h3 <;>
    simp [h1, h2, h3, Nat.pos_iff_ne_zero, Nat.lt_irrefl]

/-- Witness for C6's general breakdown characterization at a concrete
counter value. -/
theorem summary_scenario_amended_witness :
    ((Nat.repr 2).toList ++ (" ticker".toList)) ∈ skippedMessages ⟨0, 2, 0, 0⟩ :=
  (summary_scenario_amended.2.2 ⟨0, 2, 0, 0⟩ _).mpr (.inl ⟨by decide, rfl⟩)

/-- Claim C7: order preservation — the emitted message list is the in-order
image of the recognized actions, so a recognized action `a` occurring before
a recognized action `b` yields its message before `b`'s message. -/
theorem order_preservation (pre mid post : List Action) (a b : Action)
    (ma mb : DisplayMessage) (ha : msgOf a = some ma) (hb : msgOf b = some mb) :
    (displayChatMessages (pre ++ a :: (mid ++ b :: post))).1 =
      (displayChatMessages pre).1 ++
        ma :: ((displayChatMessages mid).1 ++ mb :: (displayChatMessages post).1) := by
  rw [messages_eq_filterMap, messages_eq_filterMap, messages_eq_filterMap,
    messages_eq_filterMap]
  rw [List.filterMap_append, List.filterMap_cons, ha, List.filterMap_append,
    List.filterMap_cons, hb]

/-- Witness for C7 with two concrete recognized actions. -/
theorem order_preservation_witness :
    msgOf sampleTextAction = some sampleMsg ∧
      (displayChatMessages ([] ++ sampleTextAction :: ([] ++ sampleTextAction :: []))).1 =
        (displayChatMessages []).1 ++
          sampleMsg :: ((displayChatMessages []).1 ++
            sampleMsg :: (displayChatMessages []).1) :=
  ⟨rfl, order_preservation [] [] [] sampleTextAction sampleTextAction
    sampleMsg sampleMsg rfl rfl⟩

/-- Claim C8: an emoji run whose thumbnail list yields no resolvable image URL
degrades to the bracketed alt-text token (the `emojiFallbackText` output, the
run-level image-unavailable signal) instead of an image run; in particular the
`chat` emoji run with an empty thumbnail list yields the degraded run with alt
text `chat`. -/
theorem emoji_fallback_degrades (e : EmojiData) (h : emojiSrcOf e = []) :
    emojiOut e = .emojiFallbackText (emojiAltOf e) ∧
      runToOut chatEmojiRun = some (.emojiFallbackText ("chat".toList)) := by
  constructor
  · simp [emojiOut, h]
  · decide

/-- Witness for C8 at the concrete `chat` emoji. -/
theorem emoji_fallback_degrades_witness :
    emojiSrcOf chatEmoji = [] ∧
      emojiOut chatEmoji = .emojiFallbackText (emojiAltOf chatEmoji) :=
  ⟨by decide, (emoji_fallback_degrades chatEmoji (by decide)).1⟩

/-- Claim C9: rich-text run decomposition — `processMessageRuns` processes the
runs in order, emitting a text run for truthy text, an emoji run (whose image
URL is the first thumbnail's URL when resolvable) for a present emoji, and
nothing for any other run kind. -/
theorem run_decomposition :
    (∀ rs : List Run, processMessageRuns (some rs) = rs.filterMap runToOut) ∧
    (∀ (run : Run) (t : List Char), run.text = some t → t ≠ [] →
        runToOut run = some (.textRun t)) ∧
    (∀ (run : Run) (e : EmojiData), truthyStr run.text = false →
        run.emoji = some e → runToOut run = some (emojiOut e)) ∧
    (∀ (e : EmojiData) (u : List Char) (ts : List Thumbnail),
        e.image = some { thumbnails := some ({ url := some u } :: ts) } →
        u ≠ [] → emojiOut e = .emojiRun u (emojiAltOf e)) ∧
    (∀ run : Run, truthyStr run.text = false → run.emoji = none →
        runToOut run = none) := by
  refine ⟨?_, ?_, ?_, ?_, ?_⟩
  · intro rs
    unfold processMessageRuns
    exact foldl_runToOut_append rs []
  · intro run t h ht
    have hne : t.isEmpty = false := by
      cases t with
      | nil => exact absurd rfl ht
      | cons x xs => rfl
    unfold runToOut
    rw [h]
    simp [truthyStr, hne]
  · intro run e h1 h2
    unfold runToOut
    rw [h1, h2]
    simp
  · intro e u ts h hu
    have hne : u.isEmpty = false := by
      cases u with
      | nil => exact absurd rfl hu
      | cons x xs => rfl
    have hsrc : emojiSrcOf e = u := by
      unfold emojiSrcOf
      rw [h]
      simp [orElseStr, hne]
    simp [emojiOut, hsrc, hne]
  · intro run h1 h2
    unfold runToOut
    rw [h1, h2]
    simp

/-- Witness for C9 on concrete runs of each kind. -/
theorem run_decomposition_witness :
    runToOut { text := some ("hi".toList), emoji := none } =
      some (.textRun ("hi".toList)) ∧
    runToOut chatEmojiRun = some (emojiOut chatEmoji) ∧
    runToOut { text := none, emoji := none } = none :=
  ⟨run_decomposition.2.1 _ ("hi".toList) rfl (by decide),
   run_decomposition.2.2.1 chatEmojiRun chatEmoji rfl rfl,
   run_decomposition.2.2.2.2 _ rfl rfl⟩

/-- Claim C10 as stated is false at a concrete input: a run whose text field
is the empty string but which carries an emoji is not dropped — the truthiness
test `if (run.text)` fails, so the `else if (run.emoji)` branch fires and a
node is appended (here the degraded alt-text token for the `chat` emoji), so
the run's output is not `none`. -/
theorem empty_text_emoji_run_counterexample :
    runToOut { text := some [], emoji := some chatEmoji } =
      some (.emojiFallbackText ("chat".toList)) ∧
    runToOut { text := some [], emoji := some chatEmoji } ≠ none :=
  ⟨by decide, by decide⟩

/-- Claim C10 (amended): field selection is by JavaScript truthiness, so the
fallbacks fire on empty strings, not only on absence: an empty
`authorName.simpleText` yields `[unknown author]`, an empty
`timestampText.simpleText` yields `[no time]`, an empty first author-photo
thumbnail URL yields the placeholder, a present badge with an empty tooltip
gets the tooltip `Badge`, a run whose text is the empty string and which
carries no emoji is dropped entirely, no run is ever emitted as an empty text
run, and a run whose text is the empty string but which carries an emoji is
emitted as its emoji run. -/
theorem truthiness_fallbacks :
    (∀ (r : Renderer) (member : Bool) (body : List BodyPart),
        r.authorName.bind SimpleText.simpleText = some [] →
        (buildCommon r member body).authorName = unknownAuthorText) ∧
    (∀ (r : Renderer) (member : Bool) (body : List BodyPart),
        r.timestampText.bind SimpleText.simpleText = some [] →
        (buildCommon r member body).timestampText = noTimeText) ∧
    (∀ (r : Renderer) (member : Bool) (body : List BodyPart),
        ((r.authorPhoto.bind ThumbnailList.thumbnails).bind List.head?).bind
          Thumbnail.url = some [] →
        (buildCommon r member body).authorPhotoUrl = placeholderUrl) ∧
    (∀ (br : BadgeRenderer) (u : List Char),
        ((br.customThumbnail.bind ThumbnailList.thumbnails).bind List.head?).bind
          Thumbnail.url = some u → u ≠ [] → br.tooltip = some [] →
        badgeOf { liveChatAuthorBadgeRenderer := some br } =
          some { iconUrl := u, tooltip := badgeDefaultText }) ∧
    (∀ run : Run, run.text = some [] → run.emoji = none → runToOut run = none) ∧
    (∀ (run : Run) (t : List Char), runToOut run = some (.textRun t) → t ≠ []) ∧
    (∀ (run : Run) (e : EmojiData), run.text = some [] → run.emoji = some e →
        runToOut run = some (emojiOut e)) := by
  refine ⟨?_, ?_, ?_, ?_, ?_, ?_, ?_⟩
  · intro r member body h
    unfold buildCommon
    simp [h, orElseStr]
  · intro r member body h
    unfold buildCommon
    simp [h, orElseStr]
  · intro r member body h
    unfold buildCommon
    simp [h, orElseStr]
  · intro br u h hu htip
    have hne : u.isEmpty = false := by
      cases u with
      | nil => exact absurd rfl hu
      | cons x xs => rfl
    unfold badgeOf
    simp only []
    rw [h]
    simp [truthyStr, hne, htip, orElseStr]
  · intro run h1 h2
    unfold runToOut
    rw [h1, h2]
    simp [truthyStr]
  · intro run t h
    unfold runToOut at h
    split at h
    · rename_i ht
      simp only [Option.some.injEq, RunOut.textRun.injEq] at h
      subst h
      cases hx : run.text with
      | none => simp [truthyStr, hx] at ht
      | some s =>
        simp only [Option.getD_some]
        simp only [truthyStr, hx, Bool.not_eq_true'] at ht
        intro hn
        rw [hn] at ht
        simp at ht
    · split at h
      · rename_i e he
        simp only [Option.some.injEq] at h
        exact absurd h (emojiOut_ne_textRun e t)
      · simp at h
  · intro run e h1 h2
    unfold runToOut
    rw [h1, h2]
    simp [truthyStr]

/-- A badge renderer with a nonempty icon URL and an empty tooltip. -/
def sampleBadgeRenderer : BadgeRenderer :=
  { customThumbnail := some { thumbnails := some [{ url := some ("u".toList) }] }
  , tooltip := some [] }

/-- Witness for C10 on concrete inputs for each clause. -/
theorem truthiness_fallbacks_witness :
    (buildCommon { emptyRenderer with authorName := some { simpleText := some [] } }
        false []).authorName = unknownAuthorText ∧
    (buildCommon { emptyRenderer with timestampText := some { simpleText := some [] } }
        false []).timestampText = noTimeText ∧
    badgeOf { liveChatAuthorBadgeRenderer := some sampleBadgeRenderer } =
      some { iconUrl := ("u".toList), tooltip := badgeDefaultText } ∧
    runToOut { text := some [], emoji := none } = none ∧
    runToOut { text := some [], emoji := some chatEmoji } = some (emojiOut chatEmoji) :=
  ⟨truthiness_fallbacks.1 _ false [] rfl,
   truthiness_fallbacks.2.1 _ false [] rfl,
   truthiness_fallbacks.2.2.2.1 _ ("u".toList) rfl (by decide) rfl,
   truthiness_fallbacks.2.2.2.2.1 _ rfl rfl,
   truthiness_fallbacks.2.2.2.2.2.2 _ chatEmoji rfl rfl⟩

end ChatReplay
